import Mathlib

/-!
# Versaluu chat application: message and auth controllers

A shallow embedding of `backend/src/controllers/message.controller.js` and
`backend/src/controllers/auth.controller.js`.

Each controller is an `async (req, res)` function whose whole body sits in one
`try { ... } catch (error) { res.status(500).json({ message: "Internal server error" }) }`.
It is embedded as a pure function

    controller : Env → World → Request → World × Response

* `World` is the state the controllers read and write: the two collections,
  the presence table and the log of `emit` calls made on the socket server.
* `Env` holds the outcome of every call that leaves the controller during one
  request (database, media host, password hashing, socket server).  Wherever
  such a call can reject or throw, the outcome type has a failing value, and
  the embedding then continues in the `catch` block of the controller.
* `Response` is what has been written on `res` when the controller returns:
  status, JSON body and the session cookie, if one was set.
-/

namespace Versaluu

/-- Identifiers (`_id`, socket ids) are strings. -/
abbrev Id := String

/-- JavaScript truthiness of a value that is either `undefined` or a string:
`undefined` and the empty string are falsy. -/
def truthy : Option String → Bool
  | none => false
  | some s => s != ""

/-- The `length` of a JavaScript string: its number of UTF-16 code units.  A
character outside the Basic Multilingual Plane takes two units. -/
def jsLength (s : String) : Nat :=
  (s.data.map (fun c => if c.val.toNat < 65536 then 1 else 2)).sum

/-- Modelled from the spec: the Message schema (`models/message.model.js`) is not
among the sources.  A message has `id`, `senderId`, `receiverId`, optional
`text`, optional image URL (the controller stores it in the field `image`) and
`createdAt`, assigned at persistence time. -/
structure Message where
  _id : Id
  senderId : Id
  receiverId : Id
  text : Option String
  image : Option String
  createdAt : Nat
  deriving DecidableEq, Repr

/-- Modelled from the spec: the validation done by the Message Store when a
message is saved (`models/message.model.js` is not among the sources).  The
spec says `append` "validates the text/imageUrl invariant" and "fails with
`ValidationError` if both `text` and `imageUrl` are absent": a document passes
when at least one of the two fields is present. -/
def Message.hasTextOrImage (m : Message) : Bool :=
  m.text.isSome || m.image.isSome

/-- Modelled from the spec: the User schema (`models/user.model.js`) is not among
the sources.  The fields are the ones the controllers read and write.
`password` is optional because `select("-password")` yields documents without
that field; every document built by `signup` has it. -/
structure User where
  _id : Id
  fullName : String
  email : String
  password : Option String
  profilePic : Option String
  deriving DecidableEq, Repr

/-- State read and written by the controllers. -/
structure World where
  /-- The `users` collection, in the natural order of the collection. -/
  users : List User
  /-- The `messages` collection, in the natural order of the collection. -/
  messages : List Message
  /-- The presence table `userId → socketId` kept by `lib/socket.js`. -/
  userSocketMap : List (Id × Id)
  /-- Every call `io.to(socketId).emit("message", payload)` made so far, in
  order, whether the call returned or threw. -/
  emitted : List (Id × Message)
  deriving DecidableEq, Repr

/-- Outcomes of the calls that leave a controller during one request. -/
structure Env where
  /-- `cloudinary.uploader.upload(image)`: `some url` is the `secure_url` of the
  resolved response, `none` is a rejected upload. -/
  upload : String → Option String
  /-- Whether `find` / `findOne` resolve (`false`: the query rejects). -/
  queryOk : Bool
  /-- Whether `newMessage.save()` resolves for this document (schema validation
  and the write itself); `false`: it rejects and nothing is written. -/
  saveMessage : Message → Bool
  /-- Whether `newUser.save()` resolves for this document. -/
  saveUser : User → Bool
  /-- Whether `io.to(socketId).emit("message", payload)` returns normally
  (`false`: the call throws). -/
  emitReturns : Id → Message → Bool
  /-- The `_id` given to a document by `new Message(..)` / `new User(..)`. -/
  newId : Id
  /-- The clock read when a document is saved. -/
  now : Nat
  /-- `bcrypt.hash(password, await bcrypt.genSalt(10))`. -/
  hash : String → String
  /-- `bcrypt.compare(password, user.password)`; `none`: the call rejects, as
  bcryptjs does when an argument is not a string ("Illegal arguments"). -/
  compare : Option String → Option String → Option Bool
  /-- The signed session token issued for a user id. -/
  sign : Id → String

/-- JSON bodies the controllers send. -/
inductive Body where
  /-- `{ message: text }` -/
  | error (message : String)
  /-- `{ _id, fullName, email, profilePic }` -/
  | user (_id : Id) (fullName email : String) (profilePic : Option String)
  /-- An array of user documents. -/
  | users (us : List User)
  /-- An array of message documents. -/
  | messages (ms : List Message)
  /-- One message document. -/
  | message (m : Message)
  deriving DecidableEq, Repr

/-- What has been written on `res` when the controller returns. -/
structure Response where
  status : Nat
  body : Body
  /-- Value of the `jwt` cookie set on this response, if any. -/
  cookie : Option String
  deriving DecidableEq, Repr

/-- The `catch` block shared by all controllers, applied to the response `res`
as it stands when the exception arrives: `res.status(500).json({ message: "Internal server error" })`. -/
def catchBlock (res : Response) : Response :=
  { res with status := 500, body := Body.error "Internal server error" }

/-- A response on which nothing has been written yet. -/
def freshRes : Response := ⟨200, Body.error "", none⟩

/-- `res.status(s).json(b)` on the response `res`. -/
def Response.send (res : Response) (s : Nat) (b : Body) : Response :=
  { res with status := s, body := b }

/-! ## Queries -/

/-- Filters the controllers pass to `Message.find`. -/
inductive MsgFilter where
  /-- `{ senderId: s, receiverId: r }` -/
  | fields (s r : Id)
  /-- `{ $or: [a, b] }` -/
  | or (a b : MsgFilter)
  deriving Repr

/-- Whether a message document satisfies a filter. -/
def MsgFilter.matches : MsgFilter → Message → Bool
  | MsgFilter.fields s r, m => m.senderId == s && m.receiverId == r
  | MsgFilter.or a b, m => a.matches m || b.matches m

/-- `Message.find(filter)`: the matching documents in the natural order of the
collection (the call has no `sort`); `none` when the query rejects. -/
def Message.find (env : Env) (w : World) (f : MsgFilter) : Option (List Message) :=
  if env.queryOk then some (w.messages.filter f.matches) else none

/-- Filters the controllers pass to `User.find` / `User.findOne`. -/
inductive UserFilter where
  /-- `{ _id: { $ne: id } }` -/
  | idNe (id : Id)
  /-- `{ email }`, where `email` may be `undefined`. -/
  | emailEq (email : Option String)
  deriving Repr

/-- Whether a user document satisfies a filter. -/
def UserFilter.matches : UserFilter → User → Bool
  | UserFilter.idNe id, u => u._id != id
  | UserFilter.emailEq e, u => some u.email == e

/-- The projection `select("-password")` on one document. -/
def User.withoutPassword (u : User) : User :=
  { u with password := none }

/-- `User.find(filter).select("-password")`. -/
def User.findSelectNoPassword (env : Env) (w : World) (f : UserFilter) : Option (List User) :=
  if env.queryOk then some ((w.users.filter f.matches).map User.withoutPassword) else none

/-- `User.findOne(filter)`: outer `none` when the query rejects, inner `none`
when no document matches (`null`). -/
def User.findOne (env : Env) (w : World) (f : UserFilter) : Option (Option User) :=
  if env.queryOk then some (w.users.find? f.matches) else none

/-! ## Collaborators of this repository that are not among the sources -/

/-- Modelled from the spec: `getReceiverSocketId` of `lib/socket.js` is not among
the sources.  It is the Presence Registry `lookup(userId) → Option<handle>`:
the current live handle of the user, or none if the user is offline. -/
def getReceiverSocketId (w : World) (userId : Id) : Option Id :=
  w.userSocketMap.lookup userId

/-- Modelled from the spec: `generateToken` of `lib/utils.js` is not among the
sources.  It is the Token Service `issue(userId)`, and the token is transported
as an HTTP cookie: the call sets the session cookie on `res`. -/
def generateToken (env : Env) (userId : Id) (res : Response) : Response :=
  { res with cookie := some (env.sign userId) }

/-! ## message.controller.js -/

/-- An authenticated request with a route parameter `:id`. -/
structure PeerReq where
  /-- `req.user._id` -/
  userId : Id
  /-- `req.params.id` -/
  paramId : Id
  deriving DecidableEq, Repr

/-- An authenticated request to `sendMessage`. -/
structure SendReq where
  /-- `req.user._id` -/
  userId : Id
  /-- `req.params.id` -/
  paramId : Id
  /-- `req.body.text` -/
  text : Option String
  /-- `req.body.image` -/
  image : Option String
  deriving DecidableEq, Repr

/-- `getUsersForSidebar` (message.controller.js, lines 7-23). -/
def getUsersForSidebar (env : Env) (w : World) (userId : Id) : World × Response :=
  let loggedInUserId := userId
  match User.findSelectNoPassword env w (UserFilter.idNe loggedInUserId) with
  | some filteredUsers => (w, freshRes.send 200 (Body.users filteredUsers))
  | none => (w, catchBlock freshRes)

/-- `getMessages` (message.controller.js, lines 26-48). -/
def getMessages (env : Env) (w : World) (req : PeerReq) : World × Response :=
  let userToChatId := req.paramId
  let myId := req.userId
  match Message.find env w
      (MsgFilter.or (MsgFilter.fields myId userToChatId) (MsgFilter.fields userToChatId myId)) with
  | some messages => (w, freshRes.send 200 (Body.messages messages))
  | none => (w, catchBlock freshRes)

/-- Lines 61-66 of `sendMessage`: `imageUrl` stays `undefined` unless `image` is
truthy; outer `none` is a rejected upload. -/
def uploadImage (env : Env) (image : Option String) : Option (Option String) :=
  match image with
  | some img =>
    if truthy (some img) then
      match env.upload img with
      | some secureUrl => some (some secureUrl)
      | none => none
    else some none
  | none => some none

/-- `sendMessage` (message.controller.js, lines 51-94). -/
def sendMessage (env : Env) (w : World) (req : SendReq) : World × Response :=
  let text := req.text
  let image := req.image
  let receiverId := req.paramId
  let senderId := req.userId
  match uploadImage env image with
  | none => (w, catchBlock freshRes)
  | some imageUrl =>
    let newMessage : Message :=
      { _id := env.newId, senderId := senderId, receiverId := receiverId,
        text := text, image := imageUrl, createdAt := env.now }
    if env.saveMessage newMessage then
      let w1 := { w with messages := w.messages ++ [newMessage] }
      let receiverSocketId := getReceiverSocketId w1 receiverId
      if truthy receiverSocketId then
        match receiverSocketId with
        | some sid =>
          let w2 := { w1 with emitted := w1.emitted ++ [(sid, newMessage)] }
          if env.emitReturns sid newMessage then
            (w2, freshRes.send 201 (Body.message newMessage))
          else (w2, catchBlock freshRes)
        | none => (w1, freshRes.send 201 (Body.message newMessage))
      else (w1, freshRes.send 201 (Body.message newMessage))
    else (w, catchBlock freshRes)

/-! ## auth.controller.js -/

/-- Body of a `signup` request; every field may be missing. -/
structure SignupReq where
  fullName : Option String
  email : Option String
  password : Option String
  deriving DecidableEq, Repr

/-- Body of a `login` request. -/
structure LoginReq where
  email : Option String
  password : Option String
  deriving DecidableEq, Repr

/-- `signup` (auth.controller.js, lines 7-58).  `new User(..)` always yields an
object, so `if (newUser)` takes its first branch.  `password.length` is the
number of UTF-16 code units, `jsLength`. -/
def signup (env : Env) (w : World) (req : SignupReq) : World × Response :=
  if !truthy req.fullName || !truthy req.email || !truthy req.password then
    (w, freshRes.send 400 (Body.error "All fields are required"))
  else
    match req.fullName, req.email, req.password with
    | some fullName, some email, some password =>
      if jsLength password < 6 then
        (w, freshRes.send 400 (Body.error "Password should be at least 6 characters long"))
      else
        match User.findOne env w (UserFilter.emailEq (some email)) with
        | none => (w, catchBlock freshRes)
        | some (some _) => (w, freshRes.send 400 (Body.error "Email already exists"))
        | some none =>
          let hashedPassword := env.hash password
          let newUser : User :=
            { _id := env.newId, fullName := fullName, email := email,
              password := some hashedPassword, profilePic := none }
          let res := generateToken env newUser._id freshRes
          if env.saveUser newUser then
            ({ w with users := w.users ++ [newUser] },
              res.send 201 (Body.user newUser._id newUser.fullName newUser.email newUser.profilePic))
          else (w, catchBlock res)
    | _, _, _ => (w, freshRes.send 400 (Body.error "All fields are required"))

/-- `login` (auth.controller.js, lines 61-95). -/
def login (env : Env) (w : World) (req : LoginReq) : World × Response :=
  match User.findOne env w (UserFilter.emailEq req.email) with
  | none => (w, catchBlock freshRes)
  | some none => (w, freshRes.send 400 (Body.error "Invalid credentials"))
  | some (some user) =>
    match env.compare req.password user.password with
    | none => (w, catchBlock freshRes)
    | some false => (w, freshRes.send 400 (Body.error "Invalid credentials"))
    | some true =>
      let res := generateToken env user._id freshRes
      (w, res.send 200 (Body.user user._id user.fullName user.email user.profilePic))

/-! ## Ordering of a conversation -/

/-- Ascending by `createdAt`, ties broken by `_id` ascending. -/
def msgLe (a b : Message) : Prop :=
  a.createdAt < b.createdAt ∨ (a.createdAt = b.createdAt ∧ (a._id < b._id ∨ a._id = b._id))

instance : DecidableRel msgLe := fun a b =>
  inferInstanceAs (Decidable
    (a.createdAt < b.createdAt ∨ (a.createdAt = b.createdAt ∧ (a._id < b._id ∨ a._id = b._id))))

/-! ## Sample data -/

/-- Collaborators that all succeed. -/
def envOk : Env :=
  { upload := fun img => some ("https://media/" ++ img)
    queryOk := true
    saveMessage := fun _ => true
    saveUser := fun _ => true
    emitReturns := fun _ _ => true
    newId := "m1"
    now := 10
    hash := fun p => "hash:" ++ p
    compare := fun p h => match p, h with
      | some p, some h => some (("hash:" ++ p) == h)
      | _, _ => none
    sign := fun u => "jwt:" ++ u }

/-- An empty store, nobody connected. -/
def emptyWorld : World := ⟨[], [], [], []⟩

/-- The media host rejects every upload. -/
def envUploadFails : Env := { envOk with upload := fun _ => none }

/-- The store rejects every save. -/
def envSaveFails : Env := { envOk with saveMessage := fun _ => false, saveUser := fun _ => false }

/-- A store that validates as the spec says `append` does and otherwise accepts
every write. -/
def envSpecStore : Env := { envOk with saveMessage := fun m => m.hasTextOrImage }

/-- The socket server throws on `emit`. -/
def envEmitThrows : Env := { envOk with emitReturns := fun _ _ => false }

/-- An empty store; user "2" is connected on socket "s2". -/
def onlineWorld : World := ⟨[], [], [("2", "s2")], []⟩

/-- User "1" sends the text "hi" to user "2". -/
def reqHi : SendReq := ⟨"1", "2", some "hi", none⟩

/-- User "1" sends the text "hi" and an image to user "2". -/
def reqPng : SendReq := ⟨"1", "2", some "hi", some "data:png"⟩

/-- A store where the later document of a conversation carries the earlier
`createdAt`. -/
def unorderedWorld : World :=
  ⟨[], [⟨"m1", "1", "2", some "first", none, 5⟩, ⟨"m2", "2", "1", some "second", none, 3⟩], [], []⟩

/-- Three stored users. -/
def threeUsers : World :=
  ⟨[⟨"1", "Ann", "ann@x.io", some "hash:secret1", none⟩,
    ⟨"2", "Bob", "bob@x.io", some "hash:secret2", some "https://media/bob"⟩,
    ⟨"3", "Cy", "cy@x.io", some "hash:secret3", none⟩], [], [], []⟩

/-- A well-formed signup request for an email that is not registered in `emptyWorld`. -/
def reqAnn : SignupReq := ⟨some "Ann", some "ann@x.io", some "secret1"⟩

/-- User "1" sends neither text nor image to user "2". -/
def reqEmpty : SendReq := ⟨"1", "2", none, none⟩

/-- The message `reqHi` produces under `envOk`. -/
def msgHi : Message := ⟨"m1", "1", "2", some "hi", none, 10⟩

/-! ## sendMessage -/

/-- Shape of every result of `sendMessage`: either nothing was persisted and
nothing was emitted, or exactly the message built from the request was
appended to the collection. -/
theorem sendMessage_cases (env : Env) (w : World) (req : SendReq) :
    (sendMessage env w req = (w, catchBlock freshRes)) ∨
    (∃ m : Message,
      (sendMessage env w req).1.messages = w.messages ++ [m] ∧
      env.saveMessage m = true ∧
      m.senderId = req.userId ∧ m.receiverId = req.paramId ∧ m.text = req.text ∧
      (truthy req.image = false → m.image = none) ∧
      (sendMessage env w req).1.users = w.users ∧
      (sendMessage env w req).1.userSocketMap = w.userSocketMap ∧
      ((truthy (getReceiverSocketId w req.paramId) = false ∧
          (sendMessage env w req).1.emitted = w.emitted ∧
          (sendMessage env w req).2 = ⟨201, Body.message m, none⟩) ∨
       (∃ sid, getReceiverSocketId w req.paramId = some sid ∧ sid ≠ "" ∧
          (sendMessage env w req).1.emitted = w.emitted ++ [(sid, m)] ∧
          ((env.emitReturns sid m = true ∧
              (sendMessage env w req).2 = ⟨201, Body.message m, none⟩) ∨
           (env.emitReturns sid m = false ∧
              (sendMessage env w req).2 = ⟨500, Body.error "Internal server error", none⟩))))) := by
  cases hup : uploadImage env req.image with
  | none => left; simp only [sendMessage, hup]
  | some imageUrl =>
    have himg : truthy req.image = false → imageUrl = none := by
      intro hf
      unfold uploadImage at hup
      cases hi : req.image with
      | none => simp [hi] at hup; exact hup.symm
      | some img =>
        rw [hi] at hf
        simp [hi, hf] at hup
        exact hup.symm
    cases hs : env.saveMessage
        (Message.mk env.newId req.userId req.paramId req.text imageUrl env.now) with
    | false => left; simp only [sendMessage, hup, hs]; rfl
    | true =>
      right
      refine ⟨Message.mk env.newId req.userId req.paramId req.text imageUrl env.now, ?_⟩
      cases hl : getReceiverSocketId w req.paramId with
      | none =>
        have hl2 : List.lookup req.paramId w.userSocketMap = none := hl
        simp [sendMessage, hup, hs, hl2, getReceiverSocketId, truthy, freshRes, Response.send, himg]
        exact himg
      | some sid =>
        have hl2 : List.lookup req.paramId w.userSocketMap = some sid := hl
        by_cases hsid : sid = ""
        · subst hsid
          simp [sendMessage, hup, hs, hl2, getReceiverSocketId, truthy, freshRes, Response.send, himg]
          exact himg
        · cases he : env.emitReturns sid
              (Message.mk env.newId req.userId req.paramId req.text imageUrl env.now) with
          | true =>
            simp [sendMessage, hup, hs, hl2, getReceiverSocketId, truthy, freshRes,
              Response.send, himg, hsid, he]
            exact himg
          | false =>
            simp [sendMessage, hup, hs, hl2, getReceiverSocketId, truthy, freshRes,
              Response.send, himg, hsid, he, catchBlock]
            exact himg

/-- The collection after `sendMessage`, when the upload step went through and the
store accepted the document. -/
theorem sendMessage_messages_of_saved (env : Env) (w : World) (req : SendReq)
    (imageUrl : Option String) (hup : uploadImage env req.image = some imageUrl)
    (hs : env.saveMessage ⟨env.newId, req.userId, req.paramId, req.text, imageUrl, env.now⟩ = true) :
    (sendMessage env w req).1.messages
      = w.messages ++ [⟨env.newId, req.userId, req.paramId, req.text, imageUrl, env.now⟩] := by
  simp only [sendMessage, hup, hs, if_true]
  split
  · split
    · split <;> rfl
    · rfl
  · rfl

/-- C1: when `sendMessage` is called with an image present (truthy) and the media
upload fails, the response is the error response 500, the state is unchanged:
no message is persisted and no push event is emitted. -/
theorem sendMessage_upload_failure (env : Env) (w : World) (req : SendReq) (img : String)
    (himg : req.image = some img) (hpresent : img ≠ "") (hfail : env.upload img = none) :
    (sendMessage env w req).2 = ⟨500, Body.error "Internal server error", none⟩ ∧
    (sendMessage env w req).1 = w ∧
    (sendMessage env w req).1.messages = w.messages ∧
    (sendMessage env w req).1.emitted = w.emitted := by
  have h : sendMessage env w req = (w, catchBlock freshRes) := by
    simp [sendMessage, uploadImage, himg, truthy, hpresent, hfail]
  rw [h]
  exact ⟨rfl, rfl, rfl, rfl⟩

theorem sendMessage_upload_failure_witness :
    (reqPng.image = some "data:png" ∧ "data:png" ≠ "" ∧ envUploadFails.upload "data:png" = none) ∧
    ((sendMessage envUploadFails onlineWorld reqPng).2
        = ⟨500, Body.error "Internal server error", none⟩ ∧
      (sendMessage envUploadFails onlineWorld reqPng).1 = onlineWorld ∧
      (sendMessage envUploadFails onlineWorld reqPng).1.messages = onlineWorld.messages ∧
      (sendMessage envUploadFails onlineWorld reqPng).1.emitted = onlineWorld.emitted) :=
  ⟨⟨rfl, by decide, rfl⟩,
   sendMessage_upload_failure envUploadFails onlineWorld reqPng "data:png" rfl (by decide) rfl⟩

/-- What `sendMessage` does with a request that has neither text nor image,
whatever the store: the upload is skipped and a document with both fields
absent is handed to `save`; it is persisted when `save` resolves, and when
`save` rejects the response is 500 and the state is unchanged. -/
theorem sendMessage_empty_body (env : Env) (w : World) (req : SendReq)
    (htext : req.text = none) (himage : truthy req.image = false) :
    (env.saveMessage ⟨env.newId, req.userId, req.paramId, none, none, env.now⟩ = true →
      (sendMessage env w req).1.messages
        = w.messages ++ [⟨env.newId, req.userId, req.paramId, none, none, env.now⟩]) ∧
    (env.saveMessage ⟨env.newId, req.userId, req.paramId, none, none, env.now⟩ = false →
      sendMessage env w req = (w, ⟨500, Body.error "Internal server error", none⟩)) := by
  have hup : uploadImage env req.image = some none := by
    unfold uploadImage
    cases hi : req.image with
    | none => rfl
    | some img =>
      rw [hi] at himage
      simp [himage]
  constructor
  · intro hs
    have h := sendMessage_messages_of_saved env w req none hup (by rw [htext]; exact hs)
    rw [h, htext]
  · intro hs
    simp [sendMessage, hup, htext, hs, catchBlock, freshRes]

/-- C2: with the store validating as the spec says (a save resolves only for a
document that has text or an image URL), every call of `sendMessage` in which
both text and image are absent is rejected: the validation error of the store
arrives in the `catch` block, the response is the error response 500, and the
state is unchanged, so no message is persisted and none is emitted.
Consequently every message that `sendMessage` persists has its text or its
image URL present. -/
theorem sendMessage_empty_body_rejected (env : Env) (w : World) (req : SendReq)
    (hstore : ∀ m, env.saveMessage m = true → m.hasTextOrImage = true) :
    (req.text = none → truthy req.image = false →
      (sendMessage env w req).2 = ⟨500, Body.error "Internal server error", none⟩ ∧
      (sendMessage env w req).1 = w ∧
      (sendMessage env w req).1.messages = w.messages) ∧
    (∀ m, (sendMessage env w req).1.messages = w.messages ++ [m] →
      m.text ≠ none ∨ m.image ≠ none) := by
  constructor
  · intro htext himage
    have hrej : env.saveMessage ⟨env.newId, req.userId, req.paramId, none, none, env.now⟩
        = false := by
      cases hs : env.saveMessage ⟨env.newId, req.userId, req.paramId, none, none, env.now⟩ with
      | false => rfl
      | true =>
        have := hstore _ hs
        simp [Message.hasTextOrImage] at this
    have h := (sendMessage_empty_body env w req htext himage).2 hrej
    rw [h]
    exact ⟨rfl, rfl, rfl⟩
  · intro m hm
    rcases sendMessage_cases env w req with h | ⟨m1, hm1, hsaved, -⟩
    · rw [h] at hm
      simp at hm
    · have hmm : m = m1 := by
        rw [hm1] at hm
        simpa using hm.symm
      subst hmm
      have hv := hstore m hsaved
      simp only [Message.hasTextOrImage, Bool.or_eq_true, Option.isSome_iff_ne_none] at hv
      exact hv

theorem sendMessage_empty_body_rejected_witness :
    (∀ m, envSpecStore.saveMessage m = true → m.hasTextOrImage = true) ∧
    (reqEmpty.text = none ∧ truthy reqEmpty.image = false) ∧
    ((sendMessage envSpecStore onlineWorld reqEmpty).2
        = ⟨500, Body.error "Internal server error", none⟩ ∧
      (sendMessage envSpecStore onlineWorld reqEmpty).1 = onlineWorld ∧
      (sendMessage envSpecStore onlineWorld reqEmpty).1.messages = onlineWorld.messages) ∧
    (sendMessage envSpecStore onlineWorld reqHi).1.messages = onlineWorld.messages ++ [msgHi] ∧
    (msgHi.text ≠ none ∨ msgHi.image ≠ none) :=
  ⟨fun _ h => h, ⟨rfl, rfl⟩,
   (sendMessage_empty_body_rejected envSpecStore onlineWorld reqEmpty (fun _ h => h)).1 rfl rfl,
   by decide,
   (sendMessage_empty_body_rejected envSpecStore onlineWorld reqHi (fun _ h => h)).2 msgHi
     (by decide)⟩

/-- C3: the push events of one call of `sendMessage` (the calls of `emit` it
makes).  When the message was persisted and the receiver has a registered
socket id (a non-empty string, which is what the truthiness test of the source
accepts), exactly one event is emitted, to that socket id, carrying the
persisted message.  When nothing was persisted, or the receiver has no
registered socket id, no event is emitted.  When the message was persisted and
the receiver is not registered, the response is 201 with the persisted
message.  Every call is in one of the two persistence cases. -/
theorem sendMessage_push_events (env : Env) (w : World) (req : SendReq) :
    (∀ m sid, (sendMessage env w req).1.messages = w.messages ++ [m] →
        getReceiverSocketId w req.paramId = some sid → sid ≠ "" →
        (sendMessage env w req).1.emitted = w.emitted ++ [(sid, m)]) ∧
    ((sendMessage env w req).1.messages = w.messages →
        (sendMessage env w req).1.emitted = w.emitted) ∧
    (truthy (getReceiverSocketId w req.paramId) = false →
        (sendMessage env w req).1.emitted = w.emitted) ∧
    (∀ m, (sendMessage env w req).1.messages = w.messages ++ [m] →
        truthy (getReceiverSocketId w req.paramId) = false →
        (sendMessage env w req).2 = ⟨201, Body.message m, none⟩) ∧
    ((sendMessage env w req).1.messages = w.messages ∨
      ∃ m, (sendMessage env w req).1.messages = w.messages ++ [m]) := by
  rcases sendMessage_cases env w req with h | ⟨m, hm, -, -, -, -, -, -, -, hpush⟩
  · rw [h]
    refine ⟨?_, fun _ => rfl, fun _ => rfl, ?_, Or.inl rfl⟩
    · intro m sid hm
      simp at hm
    · intro m hm
      simp at hm
  · refine ⟨?_, ?_, ?_, ?_, Or.inr ⟨m, hm⟩⟩
    · intro m1 sid hm1 hsid hne
      have hmm : m1 = m := by
        rw [hm] at hm1
        simpa using hm1.symm
      subst hmm
      rcases hpush with ⟨hf, -, -⟩ | ⟨sid1, hs1, -, he, -⟩
      · rw [hsid] at hf
        simp [truthy, hne] at hf
      · rw [hsid] at hs1
        cases hs1
        exact he
    · intro hsame
      rw [hm] at hsame
      simp at hsame
    · intro hf
      rcases hpush with ⟨-, he, -⟩ | ⟨sid1, hs1, hne1, -, -⟩
      · exact he
      · rw [hs1] at hf
        simp [truthy, hne1] at hf
    · intro m1 hm1 hf
      have hmm : m1 = m := by
        rw [hm] at hm1
        simpa using hm1.symm
      subst hmm
      rcases hpush with ⟨-, -, hr⟩ | ⟨sid1, hs1, hne1, -, -⟩
      · exact hr
      · rw [hs1] at hf
        simp [truthy, hne1] at hf

/-- Instances of C3: a registered receiver gets one event carrying the persisted
message; an unregistered receiver gets none and the sender is answered 201;
a rejected save emits nothing. -/
theorem sendMessage_push_events_witness :
    (sendMessage envOk onlineWorld reqHi).1.emitted = onlineWorld.emitted ++ [("s2", msgHi)] ∧
    (sendMessage envOk emptyWorld reqHi).1.emitted = emptyWorld.emitted ∧
    (sendMessage envOk emptyWorld reqHi).2 = ⟨201, Body.message msgHi, none⟩ ∧
    (sendMessage envSaveFails onlineWorld reqHi).1.emitted = onlineWorld.emitted :=
  ⟨(sendMessage_push_events envOk onlineWorld reqHi).1 msgHi "s2" (by decide) (by decide)
      (by decide),
   (sendMessage_push_events envOk emptyWorld reqHi).2.2.1 (by decide),
   (sendMessage_push_events envOk emptyWorld reqHi).2.2.2.1 msgHi (by decide) (by decide),
   (sendMessage_push_events envSaveFails onlineWorld reqHi).2.1 (by decide)⟩

/-- C4 (as stated, refuted): the receiver is registered and the message is
persisted in both calls; when the call of `emit` throws the response is 500,
when it returns the response is 201, so the response depends on the outcome of
the push. -/
theorem sendMessage_response_depends_on_emit :
    (sendMessage envEmitThrows onlineWorld reqHi).1.messages = [msgHi] ∧
    (sendMessage envEmitThrows onlineWorld reqHi).2
      = ⟨500, Body.error "Internal server error", none⟩ ∧
    (sendMessage envOk onlineWorld reqHi).1.messages = [msgHi] ∧
    (sendMessage envOk onlineWorld reqHi).2 = ⟨201, Body.message msgHi, none⟩ := by
  decide

/-- C4 (amended): in every call of `sendMessage` in which the message `m` was
persisted, the response is 201 carrying `m` whenever the push is not attempted
or the call of `emit` returns normally, whatever the presence table holds; when
the call of `emit` throws, the response is 500; in both cases the collection
keeps `m`. -/
theorem sendMessage_response_after_persist (env : Env) (w : World) (req : SendReq) (m : Message)
    (hpersisted : (sendMessage env w req).1.messages = w.messages ++ [m]) :
    ((∀ sid, getReceiverSocketId w req.paramId = some sid → sid ≠ "" →
          env.emitReturns sid m = true) →
        (sendMessage env w req).2 = ⟨201, Body.message m, none⟩) ∧
    ((∃ sid, getReceiverSocketId w req.paramId = some sid ∧ sid ≠ "" ∧
          env.emitReturns sid m = false) →
        (sendMessage env w req).2 = ⟨500, Body.error "Internal server error", none⟩) ∧
    m ∈ (sendMessage env w req).1.messages := by
  rcases sendMessage_cases env w req with h | ⟨m1, hm, -, -, -, -, -, -, -, hpush⟩
  · rw [h] at hpersisted
    simp at hpersisted
  · have hmm : m = m1 := by
      rw [hm] at hpersisted
      simpa using hpersisted.symm
    subst hmm
    refine ⟨?_, ?_, by rw [hm]; simp⟩
    · intro hret
      rcases hpush with ⟨-, -, hr⟩ | ⟨sid, hs, hne, -, ⟨-, hr⟩ | ⟨hthrow, -⟩⟩
      · exact hr
      · exact hr
      · rw [hret sid hs hne] at hthrow
        cases hthrow
    · rintro ⟨sid, hs, hne, hthrow⟩
      rcases hpush with ⟨hf, -, -⟩ | ⟨sid1, hs1, -, -, ⟨hret, -⟩ | ⟨-, hr⟩⟩
      · rw [hs] at hf
        simp [truthy, hne] at hf
      · rw [hs] at hs1
        cases hs1
        rw [hthrow] at hret
        cases hret
      · exact hr

theorem sendMessage_response_after_persist_witness :
    (sendMessage envOk onlineWorld reqHi).1.messages = onlineWorld.messages ++ [msgHi] ∧
    (((∀ sid, getReceiverSocketId onlineWorld reqHi.paramId = some sid → sid ≠ "" →
          envOk.emitReturns sid msgHi = true) →
        (sendMessage envOk onlineWorld reqHi).2 = ⟨201, Body.message msgHi, none⟩) ∧
     ((∃ sid, getReceiverSocketId onlineWorld reqHi.paramId = some sid ∧ sid ≠ "" ∧
          envOk.emitReturns sid msgHi = false) →
        (sendMessage envOk onlineWorld reqHi).2
          = ⟨500, Body.error "Internal server error", none⟩) ∧
     msgHi ∈ (sendMessage envOk onlineWorld reqHi).1.messages) :=
  ⟨by decide, sendMessage_response_after_persist envOk onlineWorld reqHi msgHi (by decide)⟩

/-! ## getMessages -/

/-- The filter of `getMessages`, spelled out on one document. -/
theorem conversation_matches (a b : Id) (m : Message) :
    (MsgFilter.or (MsgFilter.fields a b) (MsgFilter.fields b a)).matches m = true ↔
      ((m.senderId = a ∧ m.receiverId = b) ∨ (m.senderId = b ∧ m.receiverId = a)) := by
  simp [MsgFilter.matches]

/-- The filter of `getMessages` does not depend on the order of the two users. -/
theorem conversation_matches_comm (a b : Id) (m : Message) :
    (MsgFilter.or (MsgFilter.fields a b) (MsgFilter.fields b a)).matches m
      = (MsgFilter.or (MsgFilter.fields b a) (MsgFilter.fields a b)).matches m := by
  simp [MsgFilter.matches, Bool.or_comm]

/-- The result of `getMessages` when the query resolves. -/
theorem getMessages_of_queryOk (env : Env) (w : World) (req : PeerReq) (hq : env.queryOk = true) :
    getMessages env w req =
      (w, ⟨200, Body.messages (w.messages.filter
        (MsgFilter.or (MsgFilter.fields req.userId req.paramId)
          (MsgFilter.fields req.paramId req.userId)).matches), none⟩) := by
  simp [getMessages, Message.find, hq, freshRes, Response.send]

/-- C7: after a successful `sendMessage` of a non-empty text without image,
`getMessages` for the sender and the receiver returns the conversation as it
was before the send followed by one new message; that message is the one
`sendMessage` returned, its sender, receiver and text are the ones sent and its
image URL is absent. -/
theorem send_then_getMessages (env env1 env2 : Env) (w : World) (req : SendReq) (t : String)
    (htext : req.text = some t) (_hnonempty : t ≠ "") (himage : req.image = none)
    (hok : (sendMessage env w req).2.status = 201)
    (hq1 : env1.queryOk = true) (hq2 : env2.queryOk = true) :
    ∃ m before,
      (sendMessage env w req).2 = ⟨201, Body.message m, none⟩ ∧
      (getMessages env1 w ⟨req.userId, req.paramId⟩).2 = ⟨200, Body.messages before, none⟩ ∧
      (getMessages env2 (sendMessage env w req).1 ⟨req.userId, req.paramId⟩).2
        = ⟨200, Body.messages (before ++ [m]), none⟩ ∧
      m.senderId = req.userId ∧ m.receiverId = req.paramId ∧ m.text = some t ∧
      m.image = none := by
  rcases sendMessage_cases env w req with h | ⟨m, hm, -, hs, hr, ht, hi, -, -, hpush⟩
  · rw [h] at hok
    simp [catchBlock] at hok
  · have hresp : (sendMessage env w req).2 = ⟨201, Body.message m, none⟩ := by
      rcases hpush with ⟨-, -, hr⟩ | ⟨sid, -, -, -, ⟨-, hr⟩ | ⟨-, hr⟩⟩
      · exact hr
      · exact hr
      · rw [hr] at hok
        simp at hok
    refine ⟨m, w.messages.filter
        (MsgFilter.or (MsgFilter.fields req.userId req.paramId)
          (MsgFilter.fields req.paramId req.userId)).matches, hresp, ?_, ?_, hs, hr,
        by rw [ht, htext], hi (by rw [himage]; rfl)⟩
    · rw [getMessages_of_queryOk env1 w _ hq1]
    · rw [getMessages_of_queryOk env2 _ _ hq2, hm]
      have hmatch : (MsgFilter.or (MsgFilter.fields req.userId req.paramId)
          (MsgFilter.fields req.paramId req.userId)).matches m = true := by
        rw [conversation_matches]
        exact Or.inl ⟨hs, hr⟩
      simp [List.filter_append, hmatch]

theorem send_then_getMessages_witness :
    (reqHi.text = some "hi" ∧ "hi" ≠ "" ∧ reqHi.image = none ∧
      (sendMessage envOk emptyWorld reqHi).2.status = 201 ∧ envOk.queryOk = true) ∧
    (sendMessage envOk emptyWorld reqHi).2 = ⟨201, Body.message msgHi, none⟩ ∧
    (getMessages envOk (sendMessage envOk emptyWorld reqHi).1 ⟨"1", "2"⟩).2
      = ⟨200, Body.messages [msgHi], none⟩ ∧
    ∃ m before,
      (sendMessage envOk emptyWorld reqHi).2 = ⟨201, Body.message m, none⟩ ∧
      (getMessages envOk emptyWorld ⟨reqHi.userId, reqHi.paramId⟩).2
        = ⟨200, Body.messages before, none⟩ ∧
      (getMessages envOk (sendMessage envOk emptyWorld reqHi).1 ⟨reqHi.userId, reqHi.paramId⟩).2
        = ⟨200, Body.messages (before ++ [m]), none⟩ ∧
      m.senderId = reqHi.userId ∧ m.receiverId = reqHi.paramId ∧ m.text = some "hi" ∧
      m.image = none :=
  ⟨⟨rfl, by decide, rfl, by decide, rfl⟩, by decide, by decide,
   send_then_getMessages envOk envOk envOk emptyWorld reqHi "hi" rfl (by decide) rfl
     (by decide) rfl rfl⟩

/-- C5: when the query resolves, `getMessages` responds 200 with exactly the
stored messages whose (senderId, receiverId) is (caller, peer) or (peer,
caller): a message is in the response iff it is stored and is such a message,
each such message appears as often as it is stored, and the response is a
subsequence of the collection; the state is unchanged. -/
theorem getMessages_exact (env : Env) (w : World) (req : PeerReq) (hq : env.queryOk = true) :
    ∃ ms, getMessages env w req = (w, ⟨200, Body.messages ms, none⟩) ∧
      (∀ m, m ∈ ms ↔ m ∈ w.messages ∧
        ((m.senderId = req.userId ∧ m.receiverId = req.paramId) ∨
         (m.senderId = req.paramId ∧ m.receiverId = req.userId))) ∧
      (∀ m, ((m.senderId = req.userId ∧ m.receiverId = req.paramId) ∨
          (m.senderId = req.paramId ∧ m.receiverId = req.userId)) →
        ms.count m = w.messages.count m) ∧
      ms.Sublist w.messages := by
  refine ⟨_, getMessages_of_queryOk env w req hq, ?_, ?_, List.filter_sublist _⟩
  · intro m
    rw [List.mem_filter, conversation_matches]
  · intro m hm
    exact List.count_filter ((conversation_matches _ _ m).2 hm)

theorem getMessages_exact_witness :
    envOk.queryOk = true ∧
    getMessages envOk unorderedWorld ⟨"1", "2"⟩
      = (unorderedWorld, ⟨200, Body.messages unorderedWorld.messages, none⟩) ∧
    ∃ ms, getMessages envOk unorderedWorld ⟨"1", "2"⟩
        = (unorderedWorld, ⟨200, Body.messages ms, none⟩) ∧
      (∀ m, m ∈ ms ↔ m ∈ unorderedWorld.messages ∧
        ((m.senderId = "1" ∧ m.receiverId = "2") ∨ (m.senderId = "2" ∧ m.receiverId = "1"))) ∧
      (∀ m, ((m.senderId = "1" ∧ m.receiverId = "2") ∨ (m.senderId = "2" ∧ m.receiverId = "1")) →
        ms.count m = unorderedWorld.messages.count m) ∧
      ms.Sublist unorderedWorld.messages :=
  ⟨rfl, by decide, getMessages_exact envOk unorderedWorld ⟨"1", "2"⟩ rfl⟩

/-- C6 (as stated, refuted): on a store whose natural order is not the order of
`createdAt`, `getMessages` returns the two messages of the conversation in the
order of the store, which is not ascending by `createdAt`. -/
theorem getMessages_not_sorted :
    (getMessages envOk unorderedWorld ⟨"1", "2"⟩).2
      = ⟨200, Body.messages [⟨"m1", "1", "2", some "first", none, 5⟩,
          ⟨"m2", "2", "1", some "second", none, 3⟩], none⟩ ∧
    ¬ List.Pairwise msgLe [⟨"m1", "1", "2", some "first", none, 5⟩,
          ⟨"m2", "2", "1", some "second", none, 3⟩] := by
  decide

/-- C6 (amended): when the query resolves, `getMessages` returns the messages of
the conversation in the order in which the store holds them (the code does not
sort): the response is a subsequence of the collection, it is ascending by
`createdAt` then `_id` whenever the collection is, and it is the same response
for (A, B) and for (B, A). -/
theorem getMessages_order (env1 env2 : Env) (w : World) (a b : Id)
    (hq1 : env1.queryOk = true) (hq2 : env2.queryOk = true) :
    ∃ ms, (getMessages env1 w ⟨a, b⟩).2 = ⟨200, Body.messages ms, none⟩ ∧
      (getMessages env2 w ⟨b, a⟩).2 = ⟨200, Body.messages ms, none⟩ ∧
      ms.Sublist w.messages ∧
      (List.Pairwise msgLe w.messages → List.Pairwise msgLe ms) := by
  refine ⟨w.messages.filter (MsgFilter.or (MsgFilter.fields a b) (MsgFilter.fields b a)).matches,
    ?_, ?_, List.filter_sublist _, fun h => h.sublist (List.filter_sublist _)⟩
  · rw [getMessages_of_queryOk env1 w _ hq1]
  · rw [getMessages_of_queryOk env2 w _ hq2]
    have hfun : (MsgFilter.or (MsgFilter.fields b a) (MsgFilter.fields a b)).matches
        = (MsgFilter.or (MsgFilter.fields a b) (MsgFilter.fields b a)).matches :=
      funext fun m => conversation_matches_comm b a m
    simp only [hfun]

theorem getMessages_order_witness :
    (envOk.queryOk = true ∧ envOk.queryOk = true) ∧
    ∃ ms, (getMessages envOk unorderedWorld ⟨"1", "2"⟩).2 = ⟨200, Body.messages ms, none⟩ ∧
      (getMessages envOk unorderedWorld ⟨"2", "1"⟩).2 = ⟨200, Body.messages ms, none⟩ ∧
      ms.Sublist unorderedWorld.messages ∧
      (List.Pairwise msgLe unorderedWorld.messages → List.Pairwise msgLe ms) :=
  ⟨⟨rfl, rfl⟩, getMessages_order envOk envOk unorderedWorld "1" "2" rfl rfl⟩

/-! ## getUsersForSidebar -/

/-- C8: when the query resolves, `getUsersForSidebar` responds 200 with one
record for each stored user whose `_id` differs from the logged-in user, in
store order; the record has the `_id`, `fullName`, `email` and `profilePic` of
the stored user and no password field.  So no returned record has the id of
the logged-in user, none has a password, each agrees with a stored user on
every other field, and every other stored user is returned; the state is
unchanged. -/
theorem getUsersForSidebar_exact (env : Env) (w : World) (userId : Id)
    (hq : env.queryOk = true) :
    ∃ us, getUsersForSidebar env w userId = (w, ⟨200, Body.users us, none⟩) ∧
      us = (w.users.filter (fun u => u._id != userId)).map
        (fun u => (⟨u._id, u.fullName, u.email, none, u.profilePic⟩ : User)) ∧
      (∀ r ∈ us, r._id ≠ userId ∧ r.password = none ∧
        ∃ u ∈ w.users, u._id ≠ userId ∧ r._id = u._id ∧ r.fullName = u.fullName ∧
          r.email = u.email ∧ r.profilePic = u.profilePic) ∧
      (∀ u ∈ w.users, u._id ≠ userId →
        (⟨u._id, u.fullName, u.email, none, u.profilePic⟩ : User) ∈ us) := by
  refine ⟨(w.users.filter (fun u => u._id != userId)).map
      (fun u => (⟨u._id, u.fullName, u.email, none, u.profilePic⟩ : User)), ?_, rfl, ?_, ?_⟩
  · simp [getUsersForSidebar, User.findSelectNoPassword, hq, freshRes, Response.send]
    rfl
  · intro r hr
    rw [List.mem_map] at hr
    obtain ⟨u, hu, rfl⟩ := hr
    rw [List.mem_filter] at hu
    have hne : u._id ≠ userId := by simpa using hu.2
    exact ⟨hne, rfl, u, hu.1, hne, rfl, rfl, rfl, rfl⟩
  · intro u hu hne
    rw [List.mem_map]
    exact ⟨u, List.mem_filter.2 ⟨hu, by simpa using hne⟩, rfl⟩

theorem getUsersForSidebar_exact_witness :
    envOk.queryOk = true ∧
    (getUsersForSidebar envOk threeUsers "1").2
      = ⟨200, Body.users [⟨"2", "Bob", "bob@x.io", none, some "https://media/bob"⟩,
          ⟨"3", "Cy", "cy@x.io", none, none⟩], none⟩ ∧
    ∃ us, getUsersForSidebar envOk threeUsers "1" = (threeUsers, ⟨200, Body.users us, none⟩) ∧
      us = (threeUsers.users.filter (fun u => u._id != "1")).map
        (fun u => (⟨u._id, u.fullName, u.email, none, u.profilePic⟩ : User)) ∧
      (∀ r ∈ us, r._id ≠ "1" ∧ r.password = none ∧
        ∃ u ∈ threeUsers.users, u._id ≠ "1" ∧ r._id = u._id ∧ r.fullName = u.fullName ∧
          r.email = u.email ∧ r.profilePic = u.profilePic) ∧
      (∀ u ∈ threeUsers.users, u._id ≠ "1" →
        (⟨u._id, u.fullName, u.email, none, u.profilePic⟩ : User) ∈ us) :=
  ⟨rfl, by decide, getUsersForSidebar_exact envOk threeUsers "1" rfl⟩

/-! ## signup and login -/

/-- C9 (the code at the failing input): a well-formed signup for an unregistered
email whose `newUser.save()` rejects.  `generateToken` has already run, so the
response is 500 and carries the session cookie, while no user is stored. -/
theorem signup_save_failure_sets_cookie :
    signup envSaveFails emptyWorld reqAnn
      = (emptyWorld, ⟨500, Body.error "Internal server error", some "jwt:m1"⟩) := by
  decide

/-- The same request when the save resolves: 201, the cookie is set and the user
is stored. -/
theorem signup_success_example :
    signup envOk emptyWorld reqAnn
      = (⟨[⟨"m1", "Ann", "ann@x.io", some "hash:secret1", none⟩], [], [], []⟩,
         ⟨201, Body.user "m1" "Ann" "ann@x.io" none, some "jwt:m1"⟩) := by
  decide

/-- Every result of `login`: the state is unchanged, and the session cookie is
set iff the response is 200. -/
theorem login_cookie_iff (env : Env) (w : World) (req : LoginReq) :
    (login env w req).1 = w ∧
    ((login env w req).2.cookie.isSome = true ↔ (login env w req).2.status = 200) := by
  unfold login
  cases hf : User.findOne env w (UserFilter.emailEq req.email) with
  | none => simp [catchBlock, freshRes]
  | some found =>
    cases found with
    | none => simp [Response.send, freshRes]
    | some user =>
      cases hc : env.compare req.password user.password with
      | none => simp [hc, catchBlock, freshRes]
      | some ok => cases ok <;> simp [hc, Response.send, freshRes, generateToken]

/-- Every result of `signup` other than a failed save: a 400 response, and a 500
response reached before `generateToken`, set no cookie and store no user; a 201
response sets the cookie and stores one user. -/
theorem signup_cookie_cases (env : Env) (w : World) (req : SignupReq) :
    ((signup env w req).2.status = 400 →
        (signup env w req).2.cookie = none ∧ (signup env w req).1 = w) ∧
    ((signup env w req).2.status = 201 →
        (signup env w req).2.cookie.isSome = true ∧
        ∃ u, (signup env w req).1.users = w.users ++ [u]) ∧
    ((signup env w req).2.status = 500 → (signup env w req).1 = w) ∧
    (env.queryOk = false → (signup env w req).2.cookie = none) := by
  unfold signup
  split
  · simp [Response.send, freshRes]
  · split
    · split
      · simp [Response.send, freshRes]
      · split
        · simp [catchBlock, freshRes]
        · simp [Response.send, freshRes]
        · rename_i hfind
          have hq : env.queryOk = true := by
            cases hqq : env.queryOk with
            | true => rfl
            | false => simp [User.findOne, hqq] at hfind
          dsimp only
          split
          · simp [Response.send, freshRes, generateToken, hq]
          · simp [catchBlock, freshRes, generateToken, hq]
    · simp [Response.send, freshRes]

/-- Part of C10 that holds: a login with an email that matches no stored user
and a login with a registered email whose password comparison resolves to
false get the same result: status 400, body "Invalid credentials", no cookie,
state unchanged. -/
theorem login_indistinguishable (env1 env2 : Env) (w : World) (r1 r2 : LoginReq) (u : User)
    (hq1 : env1.queryOk = true) (hq2 : env2.queryOk = true)
    (hunknown : ∀ x ∈ w.users, some x.email ≠ r1.email)
    (hknown : w.users.find? (fun x => some x.email == r2.email) = some u)
    (hwrong : env2.compare r2.password u.password = some false) :
    login env1 w r1 = login env2 w r2 ∧
    login env1 w r1 = (w, ⟨400, Body.error "Invalid credentials", none⟩) := by
  have h1 : User.findOne env1 w (UserFilter.emailEq r1.email) = some none := by
    simp only [User.findOne, hq1, if_true]
    congr 1
    rw [List.find?_eq_none]
    intro x hx
    simpa [UserFilter.matches] using hunknown x hx
  have h2 : User.findOne env2 w (UserFilter.emailEq r2.email) = some (some u) := by
    simp only [User.findOne, hq2, if_true]
    congr 1
  have e1 : login env1 w r1 = (w, ⟨400, Body.error "Invalid credentials", none⟩) := by
    simp [login, h1, Response.send, freshRes]
  have e2 : login env2 w r2 = (w, ⟨400, Body.error "Invalid credentials", none⟩) := by
    simp [login, h2, hwrong, Response.send, freshRes]
  exact ⟨e1.trans e2.symm, e1⟩

/-- An instance: an unknown email and a registered email with a wrong password
string. -/
theorem login_indistinguishable_example :
    (envOk.queryOk = true ∧
      (∀ x ∈ threeUsers.users, some x.email ≠ (⟨some "dan@x.io", some "guess"⟩ : LoginReq).email) ∧
      threeUsers.users.find? (fun x => some x.email == (⟨some "bob@x.io", some "guess"⟩ : LoginReq).email)
        = some ⟨"2", "Bob", "bob@x.io", some "hash:secret2", some "https://media/bob"⟩ ∧
      envOk.compare (some "guess") (some "hash:secret2") = some false) ∧
    (login envOk threeUsers ⟨some "dan@x.io", some "guess"⟩
        = login envOk threeUsers ⟨some "bob@x.io", some "guess"⟩ ∧
      login envOk threeUsers ⟨some "dan@x.io", some "guess"⟩
        = (threeUsers, ⟨400, Body.error "Invalid credentials", none⟩)) :=
  ⟨⟨rfl, by decide, by decide, by decide⟩,
   login_indistinguishable envOk envOk threeUsers ⟨some "dan@x.io", some "guess"⟩
     ⟨some "bob@x.io", some "guess"⟩
     ⟨"2", "Bob", "bob@x.io", some "hash:secret2", some "https://media/bob"⟩
     rfl rfl (by decide) (by decide) (by decide)⟩

/-- C10 (the code at the failing input): two login requests without a password
field, on the same store.  For the registered email `bcrypt.compare` rejects
and the `catch` block answers 500 "Internal server error"; for the email that
matches no user the answer is 400 "Invalid credentials".  The two responses
differ, so the response reveals that the first email is registered. -/
theorem login_missing_password_reveals_registration :
    login envOk threeUsers ⟨some "bob@x.io", none⟩
      = (threeUsers, ⟨500, Body.error "Internal server error", none⟩) ∧
    login envOk threeUsers ⟨some "dan@x.io", none⟩
      = (threeUsers, ⟨400, Body.error "Invalid credentials", none⟩) ∧
    (login envOk threeUsers ⟨some "bob@x.io", none⟩).2
      ≠ (login envOk threeUsers ⟨some "dan@x.io", none⟩).2 := by
  decide

/-- The password `abcd` followed by U+1F600 has five characters and six UTF-16
code units: `signup` accepts it. -/
theorem signup_astral_password :
    jsLength ("abcd".push (Char.ofNat 128512)) = 6 ∧
    (signup envOk emptyWorld ⟨some "Ann", some "ann@x.io",
      some ("abcd".push (Char.ofNat 128512))⟩).2.status = 201 := by
  decide

end Versaluu
